import Mathlib

/-
Verification of the game-state engine and per-play event loop of a Monte Carlo
college-football simulator (sources: src/simulator/game_state.py,
src/simulator/simulate.py, src/models/*.py).

Modelling conventions:
- Python `None` / `np.nan` values of `possession`, `down`, `distance` and
  `yards_to_goal` are modelled by `Option`; an IEEE comparison against NaN is
  false, which the `opt*` helpers reproduce.
- Machine floats that only ever hold exact decimal values (probabilities,
  half-yard penalty spots) are modelled by `ℚ`; decimal literals in `ℚ` are
  exact.
- Every stochastic model call (xgboost classifiers, empirical PMFs, triangular
  samples) is an external oracle: the sampled outcome is threaded in as an
  explicit field of `Draws`.  Deterministic post-processing of those samples
  (seconds-used formulas, probability formulas) is embedded from the source.
- The derived quantities `score_diff` and `pct_game_played` are recomputed by
  `game_state.py` inside every mutator that can change their inputs, so the
  cached attributes are always in sync with the raw fields; they are therefore
  modelled as read-time functions of the raw fields.
-/

namespace CFB

inductive Team
  | home
  | away
deriving DecidableEq

/-- Per-team block of `GameState.__init__` (game_state.py lines 30-43). -/
structure TeamState where
  score : ℕ
  elo_rating : ℚ
  timeouts : ℕ
  division : String
  is_power_five : Bool
deriving DecidableEq

/-- The raw fields of `GameState` (game_state.py lines 28-59).  `rush_yards`
and `pass_yards` are modelled from the spec: `simulate.py` calls
`add_rush_yards` / `add_pass_yards` and its trailing comment lists
`rush_yards` / `pass_yards` among the changing game-state features, but the
accumulators are absent from `game_state.py`. -/
structure GameState where
  possession : Option Team
  home : TeamState
  away : TeamState
  seconds_remaining : ℕ
  down : Option ℤ
  distance : Option ℚ
  yards_to_goal : Option ℚ
  temperature : ℚ
  wind_speed : ℚ
  precipitation : ℚ
  elevation : ℚ
  clock_rolling : Bool
  neutral_site : Bool
  num_plays_on_drive : ℕ
  rush_yards : ℤ
  pass_yards : ℤ
deriving DecidableEq

namespace GameState

/-- `get_offense_score` (game_state.py lines 157-162): `home` when possession
is `'home'`, otherwise `away` (also when possession is `None`). -/
def get_offense_score (gs : GameState) : ℕ :=
  if gs.possession = some Team.home then gs.home.score else gs.away.score

/-- `get_defense_score` (game_state.py lines 181-186). -/
def get_defense_score (gs : GameState) : ℕ :=
  if gs.possession = some Team.home then gs.away.score else gs.home.score

/-- `get_offense_timeouts` (game_state.py lines 151-156). -/
def get_offense_timeouts (gs : GameState) : ℕ :=
  if gs.possession = some Team.home then gs.home.timeouts else gs.away.timeouts

/-- `get_defense_timeouts` (game_state.py lines 187-192). -/
def get_defense_timeouts (gs : GameState) : ℕ :=
  if gs.possession = some Team.home then gs.away.timeouts else gs.home.timeouts

/-- Derived `score_diff = offense_score - defense_score`
(`_update_score_diff`, game_state.py lines 70-73); recomputed by every mutator
that can change it, hence modelled as a read-time function. -/
def score_diff (gs : GameState) : ℤ :=
  (gs.get_offense_score : ℤ) - (gs.get_defense_score : ℤ)

/-- Derived `pct_game_played = (3600 - seconds_remaining) / 3600`
(`_update_pct_game_played`, game_state.py lines 74-78). -/
def pct_game_played (gs : GameState) : ℚ :=
  ((3600 : ℚ) - gs.seconds_remaining) / 3600

/-- `set_possession` (game_state.py lines 83-88): only mutates (and resets the
drive counter) when the value actually changes. -/
def set_possession (gs : GameState) (value : Option Team) : GameState :=
  if gs.possession ≠ value then
    { gs with possession := value, num_plays_on_drive := 0 }
  else gs

/-- `switch_possession` (game_state.py lines 89-96): `'home' ↦ 'away'`, any
other value (including `None`) `↦ 'home'`; zeroes `num_plays_on_drive`. -/
def switch_possession (gs : GameState) : GameState :=
  { gs with
      possession :=
        if gs.possession = some Team.home then some Team.away else some Team.home,
      num_plays_on_drive := 0 }

/-- `set_down` (game_state.py lines 97-98). -/
def set_down (gs : GameState) (value : ℤ) : GameState :=
  { gs with down := some value }

/-- `set_distance` (game_state.py lines 99-100). -/
def set_distance (gs : GameState) (value : ℚ) : GameState :=
  { gs with distance := some value }

/-- `set_yards_to_goal` (game_state.py lines 101-102). -/
def set_yards_to_goal (gs : GameState) (value : ℚ) : GameState :=
  { gs with yards_to_goal := some value }

/-- `stop_clock` (game_state.py lines 103-104). -/
def stop_clock (gs : GameState) : GameState :=
  { gs with clock_rolling := false }

/-- `start_clock` (game_state.py lines 105-106). -/
def start_clock (gs : GameState) : GameState :=
  { gs with clock_rolling := true }

/-- `decrement_offense_timeouts` (game_state.py lines 107-113). -/
def decrement_offense_timeouts (gs : GameState) : GameState :=
  if 0 < gs.get_offense_timeouts then
    if gs.possession = some Team.home then
      { gs with home := { gs.home with timeouts := gs.home.timeouts - 1 },
                clock_rolling := false }
    else
      { gs with away := { gs.away with timeouts := gs.away.timeouts - 1 },
                clock_rolling := false }
  else gs

/-- `decrement_defense_timeouts` (game_state.py lines 114-120). -/
def decrement_defense_timeouts (gs : GameState) : GameState :=
  if 0 < gs.get_defense_timeouts then
    if gs.possession = some Team.home then
      { gs with away := { gs.away with timeouts := gs.away.timeouts - 1 },
                clock_rolling := false }
    else
      { gs with home := { gs.home with timeouts := gs.home.timeouts - 1 },
                clock_rolling := false }
  else gs

/-- `increment_offense_score` (game_state.py lines 121-125): each team gets
`value if possession == that_team else 0`, so with possession `None` both
teams add 0. -/
def increment_offense_score (gs : GameState) (value : ℕ) : GameState :=
  { gs with
      home := { gs.home with
        score := gs.home.score + if gs.possession = some Team.home then value else 0 },
      away := { gs.away with
        score := gs.away.score + if gs.possession = some Team.away then value else 0 } }

/-- `increment_defense_score` (game_state.py lines 126-130). -/
def increment_defense_score (gs : GameState) (value : ℕ) : GameState :=
  { gs with
      away := { gs.away with
        score := gs.away.score + if gs.possession = some Team.home then value else 0 },
      home := { gs.home with
        score := gs.home.score + if gs.possession = some Team.away then value else 0 } }

/-- `increment_play_count` (game_state.py lines 131-132). -/
def increment_play_count (gs : GameState) : GameState :=
  { gs with num_plays_on_drive := gs.num_plays_on_drive + 1 }

/-- `decrement_seconds_remaining` (game_state.py lines 133-137):
`max(0, seconds - value)` is truncated subtraction on `ℕ`.  It only touches
`seconds_remaining` (and the derived quantities); it never stops the clock. -/
def decrement_seconds_remaining (gs : GameState) (value : ℕ) : GameState :=
  { gs with seconds_remaining := gs.seconds_remaining - value }

/-- Modelled from the spec: `increment_down` is called by the play resolver
(`down++`, spec 4.3) but is absent from `game_state.py`; an unset (NaN) down
propagates. -/
def increment_down (gs : GameState) : GameState :=
  { gs with down := gs.down.map (fun d => d + 1) }

/-- Modelled from the spec: `add_to_distance` is the yardage application of
spec 4.1/4.3, absent from `game_state.py`; NaN propagates. -/
def add_to_distance (gs : GameState) (delta : ℚ) : GameState :=
  { gs with distance := gs.distance.map (fun q => q + delta) }

/-- Modelled from the spec: `add_to_yards_to_goal`, absent from
`game_state.py`; NaN propagates. -/
def add_to_yards_to_goal (gs : GameState) (delta : ℚ) : GameState :=
  { gs with yards_to_goal := gs.yards_to_goal.map (fun q => q + delta) }

/-- Modelled from the spec: rushing-yards accumulator named in the changing
game-state feature list of simulate.py, absent from `game_state.py`. -/
def add_rush_yards (gs : GameState) (yards : ℤ) : GameState :=
  { gs with rush_yards := gs.rush_yards + yards }

/-- Modelled from the spec: passing-yards accumulator named in the changing
game-state feature list of simulate.py, absent from `game_state.py`. -/
def add_pass_yards (gs : GameState) (yards : ℤ) : GameState :=
  { gs with pass_yards := gs.pass_yards + yards }

/-- `set_yards_to_goal(100 - get_yards_to_goal())` as used on turnovers
(simulate.py lines 305-307, 453-455, 518-520, 606-608); NaN propagates. -/
def flip_yards_to_goal (gs : GameState) : GameState :=
  { gs with yards_to_goal := gs.yards_to_goal.map (fun y => 100 - y) }

end GameState

/-- Python comparison `x <= c` where `x` may be NaN (modelled `none`): a NaN
comparison is false. -/
def optLeQ (x : Option ℚ) (c : ℚ) : Bool :=
  match x with
  | some v => decide (v ≤ c)
  | none => false

/-- Python comparison `x <= c` for a possibly-NaN down value. -/
def optLeZ (x : Option ℤ) (c : ℤ) : Bool :=
  match x with
  | some v => decide (v ≤ c)
  | none => false

/-- Python comparison `x > c` where `x` may be NaN. -/
def optGtQ (x : Option ℚ) (c : ℚ) : Bool :=
  match x with
  | some v => decide (c < v)
  | none => false

/-- CPython `min(c, x)` where `x` may be NaN: returns `x` only when `x < c`
compares true, hence `c` on NaN. -/
def pyMin (c : ℚ) (x : Option ℚ) : ℚ :=
  match x with
  | some v => if v < c then v else c
  | none => c

/-- Field-goal block probability (field_goal.py lines 27-29):
`0.059 if kick_distance >= 60 else 0.00115 * kick_distance - 0.0107`. -/
def fg_block_proba (kick_distance : ℤ) : ℚ :=
  if 60 ≤ kick_distance then 0.059 else 0.00115 * (kick_distance : ℚ) - 0.0107

/-- A league-average team block used by the concrete test states. -/
def sampleTeam : TeamState :=
  { score := 0, elo_rating := 1500, timeouts := 3, division := "FBS",
    is_power_five := true }

/-- Concrete state just above the 2700-second quarter boundary with a rolling
clock. -/
def boundaryState : GameState :=
  { possession := some Team.home, home := sampleTeam, away := sampleTeam,
    seconds_remaining := 2705, down := some 1, distance := some 10,
    yards_to_goal := some 50, temperature := 70, wind_speed := 0,
    precipitation := 0, elevation := 0, clock_rolling := true,
    neutral_site := false, num_plays_on_drive := 0, rush_yards := 0,
    pass_yards := 0 }

/-- Concrete state mid-drive: home possession, one play already run on the
drive. -/
def midDriveState : GameState :=
  { possession := some Team.home, home := sampleTeam, away := sampleTeam,
    seconds_remaining := 1200, down := some 2, distance := some 7,
    yards_to_goal := some 45, temperature := 70, wind_speed := 0,
    precipitation := 0, elevation := 0, clock_rolling := false,
    neutral_site := false, num_plays_on_drive := 1, rush_yards := 0,
    pass_yards := 0 }

/-- Concrete pregame state: possession not yet assigned (before the coin
toss), nonzero candidate score increments. -/
def pregameState : GameState :=
  { possession := none, home := sampleTeam, away := sampleTeam,
    seconds_remaining := 3600, down := none, distance := none,
    yards_to_goal := none, temperature := 70, wind_speed := 0,
    precipitation := 0, elevation := 0, clock_rolling := false,
    neutral_site := false, num_plays_on_drive := 0, rush_yards := 0,
    pass_yards := 0 }

/-- `TryAttemptDecision._can_tie_with_3_and_7_one_fg` (try_attempt.py lines
46-52): bounded search for `fg ∈ {0,1}` and `td ∈ range((target-3*fg)//7 + 1)`
with `7*td + 3*fg == target`, `target = -diff`.  Python `//` floors, and
`range` of a non-positive bound is empty, which `Int.fdiv` and `Int.toNat`
reproduce. -/
def can_tie_with_3_and_7_one_fg (diff : ℤ) : Bool :=
  (List.range 2).any fun fg =>
    (List.range (((-diff - 3 * (fg : ℤ)).fdiv 7 + 1).toNat)).any fun td =>
      7 * (td : ℤ) + 3 * (fg : ℤ) == -diff

/-- `TryAttemptDecision._can_tie_with_3_7_8_one_fg` (try_attempt.py lines
54-61). -/
def can_tie_with_3_7_8_one_fg (diff : ℤ) : Bool :=
  (List.range 2).any fun fg =>
    (List.range (((-diff - 3 * (fg : ℤ)).fdiv 8 + 1).toNat)).any fun td8 =>
      (List.range (((-diff - 3 * (fg : ℤ) - 8 * (td8 : ℤ)).fdiv 7 + 1).toNat)).any fun td7 =>
        8 * (td8 : ℤ) + 7 * (td7 : ℤ) + 3 * (fg : ℤ) == -diff

/-- `TryAttemptDecision._special_tie_condition` (try_attempt.py lines 63-69). -/
def special_tie_condition (diff : ℤ) : Bool :=
  if 0 ≤ diff then false
  else !can_tie_with_3_and_7_one_fg diff && can_tie_with_3_7_8_one_fg diff

/-- The three values `Simulator.run` dispatches on (simulate.py lines 61-68);
any other value raises, and no other value is ever assigned to
`next_action`. -/
inductive NextAction
  | kickoff
  | play
  | extra_point_or_two_point_conversion
deriving DecidableEq

/-- Every string ever stored in `prev_action` by simulate.py: the three
dispatch values (via `prev_action = next_action`) plus the per-play tags. -/
inductive ActionTag
  | kickoff
  | play
  | extra_point_or_two_point_conversion
  | run_play
  | pass_play
  | qb_kneel
  | sack
  | sack_safety
  | sack_turnover
  | sack_fumble_td
  | sack_fumble_recovery
  | safety
  | field_goal
  | field_goal_miss
  | field_goal_blocked
  | field_goal_blocked_td
  | punt_return
  | punt_return_td
  | punt_blocked
  | punt_blocked_td
  | punt_blocked_safety
deriving DecidableEq

/-- `prev_action = self.next_action` stores the dispatch value itself. -/
def NextAction.tag : NextAction → ActionTag
  | NextAction.kickoff => ActionTag.kickoff
  | NextAction.play => ActionTag.play
  | NextAction.extra_point_or_two_point_conversion =>
      ActionTag.extra_point_or_two_point_conversion

/-- Recovery-team labels used by the kickoff model. -/
inductive Side
  | offense
  | defense
deriving DecidableEq

/-- Play decisions returned by the decision model (decision.py): the
first-3-downs head samples from {pass, run, field_goal, qb_kneel}, the
fourth-down head from {field_goal, punt, run, pass}. -/
inductive PlayCall
  | pass
  | run
  | field_goal
  | punt
  | qb_kneel
deriving DecidableEq

/-- One loop iteration's worth of sampled oracle outcomes.  Every call into a
model in src/models is a stochastic oracle (xgboost classifier, empirical PMF
or triangular sample behind a Bernoulli); the simulator consumes only the
sampled value, which is threaded in here. -/
structure Draws where
  coin_toss_team : Team
  offense_timeout_called : Bool
  defense_timeout_called : Bool
  penalty_yards_offense : ℕ
  penalty_yards_defense : ℕ
  offense_penalty_loss_of_down : Bool
  defense_penalty_automatic_first_down : Bool
  kickoff_ytg : ℤ
  kickoff_seconds_used : ℕ
  kickoff_recovered_by : Side
  xp_attempt : Bool
  xp_made : Bool
  two_pt_made : Bool
  first_3_downs_action : PlayCall
  fourth_down_action : PlayCall
  sack : Bool
  sack_fumble : Bool
  sack_fumble_recovery_team : String
  sack_fumble_yards_lost : ℤ
  sack_fumble_seconds_used : ℕ
  sack_yards_lost : ℤ
  sack_seconds_used : ℕ
  pass_complete : Bool
  fg_blocked : Bool
  fg_blocked_yards_gained : ℤ
  fg_blocked_seconds_used : ℕ
  fg_made : Bool
  fg_seconds_used : ℕ
  punt_blocked : Bool
  punt_blocked_yards_gained : ℤ
  punt_blocked_seconds_used : ℕ
  punt_blocked_is_td : Bool
  punt_receiving_ytg : ℤ
  punt_seconds_used : ℕ

/-- The Python `Simulator` state besides the `GameState`: the state-machine
cursor (simulate.py lines 27-29). -/
structure SimState where
  game_state : GameState
  next_action : NextAction
  prev_action : Option ActionTag
deriving DecidableEq

namespace Simulator

/-- `Simulator._coin_toss` (simulate.py lines 72-75). -/
def coin_toss (d : Draws) (s : SimState) : SimState :=
  { s with game_state := s.game_state.set_possession (some d.coin_toss_team) }

/-- `Simulator._timeout` (simulate.py lines 137-183).  In the defensive
branch, line 182 reads `self.game_state.decrement_defense_timeouts` without
parentheses: the bound method is evaluated but never called, so only the
separate `stop_clock()` on line 183 takes effect. -/
def timeout (d : Draws) (s : SimState) : SimState :=
  let gs :=
    if 0 < s.game_state.get_offense_timeouts then
      if d.offense_timeout_called then
        (s.game_state.decrement_offense_timeouts).stop_clock
      else s.game_state
    else s.game_state
  let gs :=
    if 0 < gs.get_defense_timeouts then
      if d.defense_timeout_called then
        gs.stop_clock
      else gs
    else gs
  { s with game_state := gs }

/-- `Simulator._penalty` (simulate.py lines 185-227).  `current_ytg` is read
once, before the offensive branch, and the stale value is reused by the
defensive branch.  A NaN `yards_to_goal` fails both threshold comparisons, so
the regular-penalty branch applies. -/
def penalty (d : Draws) (s : SimState) : SimState :=
  let yards_lost_offense := d.penalty_yards_offense
  let yards_lost_defense := d.penalty_yards_defense
  let current_ytg := s.game_state.yards_to_goal
  let gs := s.game_state
  let gs :=
    if 0 < yards_lost_offense then
      let gs :=
        match current_ytg with
        | some y =>
          if 100 < y + (yards_lost_offense : ℚ) then
            let penalty_distance := (100 - y) / 2
            (gs.add_to_yards_to_goal penalty_distance).add_to_distance
              penalty_distance
          else
            (gs.add_to_yards_to_goal (yards_lost_offense : ℚ)).add_to_distance
              (yards_lost_offense : ℚ)
        | none =>
          (gs.add_to_yards_to_goal (yards_lost_offense : ℚ)).add_to_distance
            (yards_lost_offense : ℚ)
      if d.offense_penalty_loss_of_down then
        if gs.down = some 4 then
          ((gs.switch_possession).set_down 1).set_distance 10
        else gs.increment_down
      else gs
    else gs
  let gs :=
    if 0 < yards_lost_defense then
      let gs :=
        match current_ytg with
        | some y =>
          if y - (yards_lost_defense : ℚ) ≤ 0 then
            let penalty_distance := y / 2
            (gs.add_to_yards_to_goal (-penalty_distance)).add_to_distance
              (-penalty_distance)
          else
            (gs.add_to_yards_to_goal (-(yards_lost_defense : ℚ))).add_to_distance
              (-(yards_lost_defense : ℚ))
        | none =>
          (gs.add_to_yards_to_goal (-(yards_lost_defense : ℚ))).add_to_distance
            (-(yards_lost_defense : ℚ))
      if d.defense_penalty_automatic_first_down then
        (gs.set_down 1).set_distance 10
      else gs
    else gs
  { s with game_state := gs }

/-- `Simulator._kickoff` (simulate.py lines 77-105). -/
def kickoff (d : Draws) (s : SimState) : SimState :=
  let gs :=
    (s.game_state.decrement_seconds_remaining d.kickoff_seconds_used).stop_clock
  let gs :=
    if d.kickoff_recovered_by = Side.defense then gs.switch_possession else gs
  if d.kickoff_ytg = 0 then
    { s with game_state := gs.increment_offense_score 6,
             prev_action := some s.next_action.tag,
             next_action := NextAction.extra_point_or_two_point_conversion }
  else
    let gs := ((gs.set_yards_to_goal (d.kickoff_ytg : ℚ)).set_down 1).set_distance 10
    { s with game_state := gs,
             prev_action := some s.next_action.tag,
             next_action := NextAction.play }

/-- `Simulator._extra_point_or_two_point_conversion` (simulate.py lines
107-135). -/
def extra_point_or_two_point_conversion (d : Draws) (s : SimState) : SimState :=
  let gs :=
    if d.xp_attempt then
      if d.xp_made then s.game_state.increment_offense_score 1 else s.game_state
    else
      if d.two_pt_made then s.game_state.increment_offense_score 2 else s.game_state
  { s with game_state := gs,
           prev_action := some s.next_action.tag,
           next_action := NextAction.kickoff }

/-- `Simulator._run_play` (simulate.py lines 289-314): the yardage is a
hard-coded 4 (the run model is never consulted), `increment_down` runs before
the `down == 4` turnover test, and no `distance <= 0` first-down reset
exists. -/
def run_play (s : SimState) : SimState :=
  let yards_gained : ℤ := 4
  let gs := s.game_state.add_rush_yards yards_gained
  let gs := gs.decrement_seconds_remaining 7
  let gs := gs.start_clock
  let gs := gs.increment_down
  let gs := gs.add_to_distance (-(yards_gained : ℚ))
  let gs := gs.add_to_yards_to_goal (-(yards_gained : ℚ))
  let s := { s with game_state := gs,
                    prev_action := some ActionTag.run_play,
                    next_action := NextAction.play }
  let s :=
    if s.game_state.down = some 4 then
      { s with game_state :=
          ((((s.game_state.switch_possession).set_down 1).set_distance
            10).flip_yards_to_goal).stop_clock }
    else s
  if optLeQ s.game_state.yards_to_goal 0 then
    { s with game_state := s.game_state.increment_offense_score 6,
             prev_action := some s.next_action.tag,
             next_action := NextAction.extra_point_or_two_point_conversion }
  else s

/-- `Simulator._qb_kneel` (simulate.py lines 591-611). -/
def qb_kneel (s : SimState) : SimState :=
  let yards_lost : ℤ := -1
  let gs := s.game_state.add_rush_yards yards_lost
  let gs := gs.decrement_seconds_remaining 3
  let gs := gs.start_clock
  let gs := gs.add_to_distance (yards_lost : ℚ)
  let gs := gs.add_to_yards_to_goal (-(yards_lost : ℚ))
  let s := { s with game_state := gs,
                    prev_action := some ActionTag.qb_kneel,
                    next_action := NextAction.play }
  if s.game_state.down = some 4 then
    { s with game_state :=
        ((((s.game_state.switch_possession).set_down 1).set_distance
          10).flip_yards_to_goal).stop_clock }
  else
    { s with game_state := s.game_state.increment_down }

/-- `Simulator._pass_play` (simulate.py lines 316-462).  Note: sack.py's
`predict_sack_fumble_recovery_team` returns the string `'offense'` or
`'defense'`, and line 346 tests `if is_offense_recovery:` — string
truthiness — so the offense-recovery branch is taken for both values; the
defensive-recovery code is reachable only for an empty string. -/
def pass_play (d : Draws) (s : SimState) : SimState :=
  let ytg := s.game_state.yards_to_goal
  let down := s.game_state.down
  if d.sack then
    if d.sack_fumble then
      let is_offense_recovery := d.sack_fumble_recovery_team
      let yards_lost := d.sack_fumble_yards_lost
      let gs := s.game_state.decrement_seconds_remaining d.sack_fumble_seconds_used
      let spot := ytg.map (fun y => 100 - y - (yards_lost : ℚ))
      if is_offense_recovery ≠ "" then
        if optLeQ spot 0 then
          { s with game_state := (gs.stop_clock).increment_defense_score 2,
                   prev_action := some ActionTag.safety,
                   next_action := NextAction.kickoff }
        else if down = some 4 then
          let gs := gs.switch_possession
          let gs := gs.set_down 1
          let gs := gs.set_distance (pyMin 10 spot)
          let gs := { gs with yards_to_goal := spot }
          let gs := gs.stop_clock
          { s with game_state := gs,
                   prev_action := some ActionTag.sack_turnover,
                   next_action := NextAction.play }
        else
          let gs := gs.start_clock
          let gs := gs.add_to_distance (yards_lost : ℚ)
          let gs := gs.add_to_yards_to_goal (yards_lost : ℚ)
          let gs := gs.increment_down
          { s with game_state := gs,
                   prev_action := some ActionTag.sack,
                   next_action := NextAction.play }
      else
        if optLeQ spot 0 then
          let gs := ((gs.increment_defense_score 6).stop_clock).switch_possession
          { s with game_state := gs,
                   prev_action := some ActionTag.sack_fumble_td,
                   next_action := NextAction.extra_point_or_two_point_conversion }
        else
          let gs := gs.switch_possession
          let gs := gs.set_down 1
          let gs := gs.set_distance (pyMin 10 spot)
          let gs := { gs with yards_to_goal := spot }
          let gs := gs.stop_clock
          { s with game_state := gs,
                   prev_action := some ActionTag.sack_fumble_recovery,
                   next_action := NextAction.play }
    else
      let yards_lost := d.sack_yards_lost
      let gs := s.game_state.decrement_seconds_remaining d.sack_seconds_used
      let spot := ytg.map (fun y => 100 - y - (yards_lost : ℚ))
      if optLeQ spot 0 then
        { s with game_state := (gs.increment_defense_score 2).stop_clock,
                 prev_action := some ActionTag.sack_safety,
                 next_action := NextAction.kickoff }
      else if down = some 4 then
        let gs := gs.switch_possession
        let gs := gs.set_down 1
        let gs := gs.set_distance (pyMin 10 spot)
        let gs := { gs with yards_to_goal := spot }
        let gs := gs.stop_clock
        { s with game_state := gs,
                 prev_action := some ActionTag.sack_turnover,
                 next_action := NextAction.play }
      else
        let gs := gs.start_clock
        let gs := gs.add_to_distance (yards_lost : ℚ)
        let gs := gs.add_to_yards_to_goal (yards_lost : ℚ)
        let gs := gs.increment_down
        { s with game_state := gs,
                 prev_action := some ActionTag.sack,
                 next_action := NextAction.play }
  else
    let yards_gained : ℤ := if d.pass_complete then 9 else 0
    let gs := s.game_state.decrement_seconds_remaining 7
    let gs := gs.add_pass_yards yards_gained
    let gs :=
      if d.pass_complete then
        -- yards_gained is reassigned to 6 before the field-position update
        ((gs.start_clock).add_to_distance (-6)).add_to_yards_to_goal (-6)
      else gs.stop_clock
    let s := { s with game_state := gs,
                      prev_action := some ActionTag.pass_play,
                      next_action := NextAction.play }
    let s :=
      if s.game_state.down = some 4 then
        { s with game_state :=
            ((((s.game_state.switch_possession).set_down 1).set_distance
              10).flip_yards_to_goal).stop_clock }
      else s
    if optLeQ s.game_state.yards_to_goal 0 then
      { s with game_state := s.game_state.increment_offense_score 6,
               prev_action := some s.next_action.tag,
               next_action := NextAction.extra_point_or_two_point_conversion }
    else s

/-- `Simulator._field_goal` (simulate.py lines 464-522).  field_goal.py's
`predict_if_field_goal_is_made` deterministically returns a miss when
`yards_to_goal > 48` (NaN also fails the comparison). -/
def field_goal (d : Draws) (s : SimState) : SimState :=
  if d.fg_blocked then
    let gs :=
      (s.game_state.decrement_seconds_remaining d.fg_blocked_seconds_used).stop_clock
    let ytg := gs.yards_to_goal.map (fun y => 100 - y - (d.fg_blocked_yards_gained : ℚ))
    let gs := gs.switch_possession
    if optLeQ ytg 0 then
      { s with game_state := gs.increment_defense_score 6,
               prev_action := some ActionTag.field_goal_blocked_td,
               next_action := NextAction.extra_point_or_two_point_conversion }
    else
      let gs := gs.set_down 1
      let gs := gs.set_distance (pyMin 10 ytg)
      let gs := { gs with yards_to_goal := ytg }
      { s with game_state := gs,
               prev_action := some ActionTag.field_goal_blocked,
               next_action := NextAction.play }
  else
    let made := if optLeQ s.game_state.yards_to_goal 48 then d.fg_made else false
    let gs :=
      (s.game_state.decrement_seconds_remaining d.fg_seconds_used).stop_clock
    if made then
      { s with game_state := gs.increment_offense_score 3,
               prev_action := some ActionTag.field_goal,
               next_action := NextAction.kickoff }
    else
      let gs := gs.switch_possession
      let gs := gs.set_down 1
      let gs := gs.set_distance 10
      let gs := gs.flip_yards_to_goal
      { s with game_state := gs,
               prev_action := some ActionTag.field_goal_miss,
               next_action := NextAction.play }

/-- `Simulator._punt` (simulate.py lines 524-589). -/
def punt (d : Draws) (s : SimState) : SimState :=
  if d.punt_blocked then
    let gs :=
      (s.game_state.decrement_seconds_remaining d.punt_blocked_seconds_used).stop_clock
    let ytg := gs.yards_to_goal.map (fun y => 100 - y - (d.punt_blocked_yards_gained : ℚ))
    if optLeQ ytg 0 then
      if d.punt_blocked_is_td then
        { s with game_state := (gs.increment_defense_score 6).switch_possession,
                 prev_action := some ActionTag.punt_blocked_td,
                 next_action := NextAction.extra_point_or_two_point_conversion }
      else
        -- safety on blocked punt; the defense gets the ball, so no switch
        { s with game_state := gs.increment_defense_score 2,
                 prev_action := some ActionTag.punt_blocked_safety,
                 next_action := NextAction.kickoff }
    else
      let gs := gs.switch_possession
      let gs := gs.set_down 1
      let gs := gs.set_distance (pyMin 10 ytg)
      let gs := { gs with yards_to_goal := ytg }
      { s with game_state := gs,
               prev_action := some ActionTag.punt_blocked,
               next_action := NextAction.play }
  else
    let receiving_ytg := d.punt_receiving_ytg
    let gs :=
      (s.game_state.decrement_seconds_remaining d.punt_seconds_used).stop_clock
    let gs := gs.switch_possession
    if receiving_ytg ≤ 0 then
      { s with game_state := gs.increment_offense_score 6,
               prev_action := some ActionTag.punt_return_td,
               next_action := NextAction.extra_point_or_two_point_conversion }
    else
      let gs := gs.set_down 1
      let gs := gs.set_distance ((min 10 receiving_ytg : ℤ) : ℚ)
      let gs := gs.set_yards_to_goal (receiving_ytg : ℚ)
      { s with game_state := gs,
               prev_action := some ActionTag.punt_return,
               next_action := NextAction.play }

/-- `Simulator._simulate_play` (simulate.py lines 229-287): choose the model
head by `down <= 3` (NaN fails, reaching the fourth-down head) and dispatch
the sampled action. -/
def simulate_play (d : Draws) (s : SimState) : SimState :=
  let down := s.game_state.down
  let action :=
    if optLeZ down 3 then d.first_3_downs_action else d.fourth_down_action
  match action with
  | PlayCall.pass => pass_play d s
  | PlayCall.run => run_play s
  | PlayCall.field_goal => field_goal d s
  | PlayCall.punt => punt d s
  | PlayCall.qb_kneel => qb_kneel s

/-- `Simulator._calculate_clock_runoff` (simulate.py lines 613-620): 40
seconds when the previous action was a kneel, else 25. -/
def calculate_clock_runoff (s : SimState) : SimState :=
  if s.prev_action = some ActionTag.qb_kneel then
    { s with game_state := s.game_state.decrement_seconds_remaining 40 }
  else
    { s with game_state := s.game_state.decrement_seconds_remaining 25 }

/-- One iteration of the `while` loop of `Simulator.run` (simulate.py lines
56-68): timeout opportunity, pre-snap clock runoff when the clock is rolling,
penalty opportunity, dispatch on `next_action`. -/
def cycle (d : Draws) (s : SimState) : SimState :=
  let s := timeout d s
  let s := if s.game_state.clock_rolling then calculate_clock_runoff s else s
  let s := penalty d s
  match s.next_action with
  | NextAction.kickoff => kickoff d s
  | NextAction.play => simulate_play d s
  | NextAction.extra_point_or_two_point_conversion =>
      extra_point_or_two_point_conversion d s

/-- The `while` loop of `Simulator.run` (simulate.py lines 56-68) with
explicit fuel.  The inner `Option ℤ` is the Python return value: the loop's
normal exit falls through to a `print` and the function ends with no `return`
statement, producing `None` (`some none`); the outer `none` means the fuel ran
out before the clock did. -/
def run_loop (draws : ℕ → Draws) : ℕ → SimState → Option (Option ℤ)
  | 0, _ => none
  | fuel + 1, s =>
    if 0 < s.game_state.seconds_remaining then
      run_loop draws fuel (cycle (draws fuel) s)
    else
      some none

/-- `Simulator.run` (simulate.py lines 43-70): coin toss when possession is
unset, then the loop. -/
def run (draws : ℕ → Draws) (fuel : ℕ) (s : SimState) : Option (Option ℤ) :=
  let s :=
    if s.game_state.possession = none then coin_toss (draws fuel) s else s
  run_loop draws fuel s

end Simulator

/-- A mid-game scrimmage state with home possession, used as the base of the
concrete test inputs. -/
def testState (secs : ℕ) (dn : ℤ) (dist ytg : ℚ) (clock : Bool) : GameState :=
  { possession := some Team.home, home := sampleTeam, away := sampleTeam,
    seconds_remaining := secs, down := some dn, distance := some dist,
    yards_to_goal := some ytg, temperature := 70, wind_speed := 0,
    precipitation := 0, elevation := 0, clock_rolling := clock,
    neutral_site := false, num_plays_on_drive := 2, rush_yards := 0,
    pass_yards := 0 }

/-- A fixed assignment of oracle outcomes: no timeout, no penalty, and
otherwise arbitrary representative values. -/
def defaultDraws : Draws :=
  { coin_toss_team := Team.home,
    offense_timeout_called := false,
    defense_timeout_called := false,
    penalty_yards_offense := 0,
    penalty_yards_defense := 0,
    offense_penalty_loss_of_down := false,
    defense_penalty_automatic_first_down := false,
    kickoff_ytg := 75,
    kickoff_seconds_used := 5,
    kickoff_recovered_by := Side.defense,
    xp_attempt := true,
    xp_made := true,
    two_pt_made := false,
    first_3_downs_action := PlayCall.run,
    fourth_down_action := PlayCall.punt,
    sack := false,
    sack_fumble := false,
    sack_fumble_recovery_team := "offense",
    sack_fumble_yards_lost := 5,
    sack_fumble_seconds_used := 6,
    sack_yards_lost := 7,
    sack_seconds_used := 4,
    pass_complete := true,
    fg_blocked := false,
    fg_blocked_yards_gained := 0,
    fg_blocked_seconds_used := 5,
    fg_made := true,
    fg_seconds_used := 5,
    punt_blocked := false,
    punt_blocked_yards_gained := 0,
    punt_blocked_seconds_used := 5,
    punt_blocked_is_td := false,
    punt_receiving_ytg := 60,
    punt_seconds_used := 8 }

/-- A finished game: zero seconds remaining, home leading 7-0. -/
def finishedGame : SimState :=
  { game_state :=
      { testState 0 1 10 50 false with
          home := { sampleTeam with score := 7 } },
    next_action := NextAction.play,
    prev_action := some ActionTag.run_play }

/-- Draws for a kneel cycle: no timeout and no penalty occur, and the
first-3-downs decision model samples a qb-kneel. -/
def kneelDraws : Draws :=
  { defaultDraws with first_3_downs_action := PlayCall.qb_kneel }

/-- C9: the field-goal block probability equals `0.00115*kick_distance - 0.0107`
for every `kick_distance < 60` and exactly `0.059` for every
`kick_distance ≥ 60`. -/
theorem fg_block_proba_piecewise (kick_distance : ℤ) :
    (kick_distance < 60 →
      fg_block_proba kick_distance = 0.00115 * (kick_distance : ℚ) - 0.0107) ∧
    (60 ≤ kick_distance → fg_block_proba kick_distance = 0.059) := by
  constructor
  · intro h
    unfold fg_block_proba
    rw [if_neg (by omega)]
  · intro h
    unfold fg_block_proba
    rw [if_pos h]

/-- Witness for C9: at `kick_distance = 70` the block probability is exactly
`0.059`, and at `kick_distance = 30` it is exactly `0.00115*30 - 0.0107`. -/
theorem fg_block_proba_piecewise_witness :
    fg_block_proba 70 = 0.059 ∧ fg_block_proba 30 = 0.00115 * (30 : ℚ) - 0.0107 :=
  ⟨(fg_block_proba_piecewise 70).2 (by decide),
   (fg_block_proba_piecewise 30).1 (by decide)⟩

/-- C6: `decrement_seconds_remaining` never changes `clock_rolling`, so the
clock is not stopped at the 2700/1800/900/120/0 boundaries; concretely,
consuming 10 seconds from 2705 with a rolling clock crosses 2700 and leaves
the clock rolling.  (No other code in the repository stops the clock at those
boundaries either; only the NOTE comment at the top of simulate.py mentions
them.) -/
theorem decrement_seconds_never_stops_clock :
    (∀ (gs : GameState) (v : ℕ),
      (gs.decrement_seconds_remaining v).clock_rolling = gs.clock_rolling) ∧
    ((boundaryState.decrement_seconds_remaining 10).seconds_remaining = 2695 ∧
     (boundaryState.decrement_seconds_remaining 10).clock_rolling = true) := by
  constructor
  · intro gs v
    rfl
  · constructor <;> rfl

/-- Counterexample for C8: `switch_possession` zeroes `num_plays_on_drive`, so
applying it twice to a state with `num_plays_on_drive = 1` does not restore the
previous value. -/
theorem switch_possession_twice_loses_drive_count :
    midDriveState.num_plays_on_drive = 1 ∧
    (midDriveState.switch_possession.switch_possession).num_plays_on_drive = 0 := by
  constructor <;> rfl

/-- C8 (amended): for a state whose possession is an actual team, applying
`switch_possession` twice restores every field except `num_plays_on_drive`,
which is reset to 0 by each switch. -/
theorem switch_possession_twice (gs : GameState) (t : Team)
    (h : gs.possession = some t) :
    gs.switch_possession.switch_possession = { gs with num_plays_on_drive := 0 } := by
  cases t <;> simp [GameState.switch_possession, h]

/-- Witness for C8 (amended): evaluated on the concrete mid-drive state. -/
theorem switch_possession_twice_witness :
    midDriveState.switch_possession.switch_possession =
      { midDriveState with num_plays_on_drive := 0 } :=
  switch_possession_twice midDriveState Team.home rfl

/-- C10: when possession is neither home nor away (`None`),
`increment_offense_score` and `increment_defense_score` leave both team scores
unchanged: each side adds `value if possession == team else 0`, and both
conditions are false. -/
theorem increment_score_noop_without_possession (gs : GameState) (n m : ℕ)
    (h : gs.possession = none) :
    (gs.increment_offense_score n).home.score = gs.home.score ∧
    (gs.increment_offense_score n).away.score = gs.away.score ∧
    (gs.increment_defense_score m).home.score = gs.home.score ∧
    (gs.increment_defense_score m).away.score = gs.away.score := by
  simp [GameState.increment_offense_score, GameState.increment_defense_score, h]

/-- Witness for C10: evaluated on the concrete pregame state with increments 6
and 2. -/
theorem increment_score_noop_without_possession_witness :
    (pregameState.increment_offense_score 6).home.score = pregameState.home.score ∧
    (pregameState.increment_offense_score 6).away.score = pregameState.away.score ∧
    (pregameState.increment_defense_score 2).home.score = pregameState.home.score ∧
    (pregameState.increment_defense_score 2).away.score = pregameState.away.score :=
  increment_score_noop_without_possession pregameState 6 2 rfl

/-- The bounded search of `_can_tie_with_3_and_7_one_fg` is complete: it
succeeds exactly when the deficit is `3*fg + 7*td` with `fg ∈ {0,1}`,
`td ≥ 0`. -/
theorem can_tie_with_3_and_7_one_fg_iff (diff : ℤ) :
    can_tie_with_3_and_7_one_fg diff = true ↔
      ∃ fg td : ℕ, fg ≤ 1 ∧ 3 * (fg : ℤ) + 7 * (td : ℤ) = -diff := by
  unfold can_tie_with_3_and_7_one_fg
  simp only [List.any_eq_true, List.mem_range, beq_iff_eq]
  constructor
  · rintro ⟨fg, hfg, td, _, heq⟩
    exact ⟨fg, td, by omega, by linarith⟩
  · rintro ⟨fg, td, hfg, heq⟩
    refine ⟨fg, by omega, td, ?_, by linarith⟩
    rw [Int.fdiv_eq_ediv] <;> omega

/-- The bounded search of `_can_tie_with_3_7_8_one_fg` is complete: it succeeds
exactly when the deficit is `3*fg + 8*td8 + 7*td7` with `fg ∈ {0,1}`,
`td8, td7 ≥ 0`. -/
theorem can_tie_with_3_7_8_one_fg_iff (diff : ℤ) :
    can_tie_with_3_7_8_one_fg diff = true ↔
      ∃ fg td8 td7 : ℕ,
        fg ≤ 1 ∧ 3 * (fg : ℤ) + 8 * (td8 : ℤ) + 7 * (td7 : ℤ) = -diff := by
  unfold can_tie_with_3_7_8_one_fg
  simp only [List.any_eq_true, List.mem_range, beq_iff_eq]
  constructor
  · rintro ⟨fg, hfg, td8, _, td7, _, heq⟩
    exact ⟨fg, td8, td7, by omega, by linarith⟩
  · rintro ⟨fg, td8, td7, hfg, heq⟩
    refine ⟨fg, by omega, td8, ?_, td7, ?_, by linarith⟩
    · rw [Int.fdiv_eq_ediv] <;> omega
    · rw [Int.fdiv_eq_ediv] <;> omega

/-- C7: `_special_tie_condition(diff)` holds exactly when the deficit `-diff`
is representable as `3*fg + 8*td8 + 7*td7` with `fg ∈ {0,1}` and
`td8, td7 ≥ 0` but not as `3*fg + 7*td` with `fg ∈ {0,1}` and `td ≥ 0`; for
`diff ≥ 0` (not trailing) it is false. -/
theorem special_tie_condition_characterization (diff : ℤ) :
    special_tie_condition diff = true ↔
      diff < 0 ∧
      (∃ fg td8 td7 : ℕ,
        fg ≤ 1 ∧ 3 * (fg : ℤ) + 8 * (td8 : ℤ) + 7 * (td7 : ℤ) = -diff) ∧
      ¬ ∃ fg td : ℕ, fg ≤ 1 ∧ 3 * (fg : ℤ) + 7 * (td : ℤ) = -diff := by
  unfold special_tie_condition
  rcases le_or_lt 0 diff with h | h
  · rw [if_pos h]
    simp only [Bool.false_eq_true, false_iff]
    rintro ⟨hneg, -, -⟩
    omega
  · rw [if_neg (by omega), Bool.and_eq_true, Bool.not_eq_true']
    constructor
    · rintro ⟨h37, h378⟩
      refine ⟨h, (can_tie_with_3_7_8_one_fg_iff diff).mp h378, ?_⟩
      intro hrep
      have hcan := (can_tie_with_3_and_7_one_fg_iff diff).mpr hrep
      rw [h37] at hcan
      exact absurd hcan (by simp)
    · rintro ⟨-, h378, h37⟩
      refine ⟨?_, (can_tie_with_3_7_8_one_fg_iff diff).mpr h378⟩
      cases hcan : can_tie_with_3_and_7_one_fg diff
      · rfl
      · exact absurd ((can_tie_with_3_and_7_one_fg_iff diff).mp hcan) h37

/-- Witness for C7: at `diff = -8` the condition is true (8 = one
8-point touchdown, but 8 is not `3*fg + 7*td` with at most one field goal). -/
theorem special_tie_condition_witness : special_tie_condition (-8) = true :=
  (special_tie_condition_characterization (-8)).mpr
    ⟨by norm_num, ⟨0, 1, 0, by norm_num⟩, by rintro ⟨fg, td, hfg, heq⟩; omega⟩

/-- Whatever the oracle draws, the fueled loop either runs out of fuel or
exits normally with the Python return value `None`. -/
theorem run_loop_no_result (draws : ℕ → Draws) :
    ∀ (fuel : ℕ) (s : SimState),
      Simulator.run_loop draws fuel s = none ∨
      Simulator.run_loop draws fuel s = some none := by
  intro fuel
  induction fuel with
  | zero => intro s; left; rfl
  | succ n ih =>
    intro s
    rw [Simulator.run_loop]
    split
    · exact ih _
    · right; rfl

/-- C1 (code bug): the docstring of `Simulator.run` promises
`sign(home_score - away_score)` in `{1, 0, -1}`, but the function body has no
`return` statement, so every terminating execution returns the Python value
`None` (modelled `some none`); concretely, a finished game with home leading
7-0 yields `None` where the claim requires 1. -/
theorem run_never_returns_result :
    (∀ (draws : ℕ → Draws) (fuel : ℕ) (s : SimState),
      Simulator.run draws fuel s = none ∨ Simulator.run draws fuel s = some none) ∧
    Simulator.run (fun _ => defaultDraws) 1 finishedGame = some none := by
  constructor
  · intro draws fuel s
    unfold Simulator.run
    exact run_loop_no_result draws fuel _
  · unfold Simulator.run
    rw [Simulator.run_loop]
    simp [finishedGame, testState]

/-- C2 (code bug): `_run_play` increments the down before testing
`down == 4`, so a failed 4th-down run (4th and 15 at the 40, code's fixed
4-yard gain) leaves the offense in possession at down 5 with distance 11 and
yards_to_goal 36 instead of flipping possession, while a failed 3rd-down run
(3rd and 9 at the 40) spuriously triggers the turnover on downs. -/
theorem run_play_turnover_off_by_one :
    ((Simulator.run_play
        { game_state := testState 500 4 15 40 false,
          next_action := NextAction.play,
          prev_action := none }).game_state.possession = some Team.home ∧
     (Simulator.run_play
        { game_state := testState 500 4 15 40 false,
          next_action := NextAction.play,
          prev_action := none }).game_state.down = some 5 ∧
     (Simulator.run_play
        { game_state := testState 500 4 15 40 false,
          next_action := NextAction.play,
          prev_action := none }).game_state.distance = some 11 ∧
     (Simulator.run_play
        { game_state := testState 500 4 15 40 false,
          next_action := NextAction.play,
          prev_action := none }).game_state.yards_to_goal = some 36) ∧
    ((Simulator.run_play
        { game_state := testState 500 3 9 40 false,
          next_action := NextAction.play,
          prev_action := none }).game_state.possession = some Team.away ∧
     (Simulator.run_play
        { game_state := testState 500 3 9 40 false,
          next_action := NextAction.play,
          prev_action := none }).game_state.down = some 1 ∧
     (Simulator.run_play
        { game_state := testState 500 3 9 40 false,
          next_action := NextAction.play,
          prev_action := none }).game_state.distance = some 10 ∧
     (Simulator.run_play
        { game_state := testState 500 3 9 40 false,
          next_action := NextAction.play,
          prev_action := none }).game_state.yards_to_goal = some 64) := by
  norm_num [Simulator.run_play, testState, sampleTeam, GameState.add_rush_yards,
    GameState.decrement_seconds_remaining, GameState.start_clock,
    GameState.stop_clock, GameState.increment_down, GameState.add_to_distance,
    GameState.add_to_yards_to_goal, GameState.switch_possession,
    GameState.set_down, GameState.set_distance, GameState.flip_yards_to_goal,
    GameState.increment_offense_score, optLeQ, NextAction.tag]

/-- C3 (code bug): `_run_play` contains no `distance <= 0` first-down reset;
gaining 4 on 1st and 3 leaves down 2 and a negative distance instead of
resetting to 1st and 10. -/
theorem run_play_no_first_down_reset :
    (Simulator.run_play
      { game_state := testState 500 1 3 50 false,
        next_action := NextAction.play,
        prev_action := none }).game_state.down = some 2 ∧
    (Simulator.run_play
      { game_state := testState 500 1 3 50 false,
        next_action := NextAction.play,
        prev_action := none }).game_state.distance = some (-1) ∧
    (Simulator.run_play
      { game_state := testState 500 1 3 50 false,
        next_action := NextAction.play,
        prev_action := none }).game_state.yards_to_goal = some 46 := by
  norm_num [Simulator.run_play, testState, sampleTeam, GameState.add_rush_yards,
    GameState.decrement_seconds_remaining, GameState.start_clock,
    GameState.stop_clock, GameState.increment_down, GameState.add_to_distance,
    GameState.add_to_yards_to_goal, GameState.switch_possession,
    GameState.set_down, GameState.set_distance, GameState.flip_yards_to_goal,
    GameState.increment_offense_score, optLeQ, NextAction.tag]

/-- C4 (code bug): when only the defensive timeout Bernoulli succeeds, the
timeout step stops the clock but leaves the defense's timeout count at 3
(line 182 names the method without calling it), instead of decrementing it
to 2. -/
theorem defensive_timeout_never_decrements :
    ((Simulator.timeout
        { defaultDraws with defense_timeout_called := true }
        { game_state := testState 500 2 7 40 true,
          next_action := NextAction.play,
          prev_action := none }).game_state.away.timeouts = 3 ∧
     (Simulator.timeout
        { defaultDraws with defense_timeout_called := true }
        { game_state := testState 500 2 7 40 true,
          next_action := NextAction.play,
          prev_action := none }).game_state.home.timeouts = 3 ∧
     (Simulator.timeout
        { defaultDraws with defense_timeout_called := true }
        { game_state := testState 500 2 7 40 true,
          next_action := NextAction.play,
          prev_action := none }).game_state.clock_rolling = false) := by
  norm_num [Simulator.timeout, defaultDraws, testState, sampleTeam,
    GameState.get_offense_timeouts, GameState.get_defense_timeouts,
    GameState.decrement_offense_timeouts, GameState.stop_clock]

/-- Counterexample for C5: from `seconds_remaining = 3600`,
`clock_rolling = true` but a previous action that was not a kneel, one loop
cycle dispatching a qb-kneel consumes 25 + 3 = 28 seconds (simulate.py keys
the 40-second kneel runoff to `prev_action`), leaving 3572 rather than the
claimed 3557. -/
theorem kneel_cycle_consumes_28_without_prior_kneel :
    (Simulator.cycle kneelDraws
      { game_state := testState 3600 1 10 50 true,
        next_action := NextAction.play,
        prev_action := none }).game_state.seconds_remaining = 3572 ∧
    (Simulator.cycle kneelDraws
      { game_state := testState 3600 1 10 50 true,
        next_action := NextAction.play,
        prev_action := none }).game_state.clock_rolling = true := by
  simp [Simulator.cycle, Simulator.timeout, Simulator.calculate_clock_runoff,
    Simulator.penalty, Simulator.simulate_play, Simulator.qb_kneel,
    kneelDraws, defaultDraws, testState, sampleTeam,
    GameState.decrement_seconds_remaining, GameState.start_clock,
    GameState.stop_clock, GameState.add_rush_yards, GameState.add_to_distance,
    GameState.add_to_yards_to_goal, GameState.increment_down,
    GameState.switch_possession, GameState.set_down, GameState.set_distance,
    GameState.flip_yards_to_goal, GameState.get_offense_timeouts,
    GameState.get_defense_timeouts, GameState.decrement_offense_timeouts,
    optLeZ, optLeQ]

/-- C5 (amended): one loop cycle from `seconds_remaining = 3600` with a
rolling clock, no timeout and no penalty drawn, a qb-kneel decision, a down of
at most 3, and a previous action that was itself a qb-kneel (the code charges
the 40-second kneel runoff via `prev_action`) consumes exactly 40 + 3 = 43
seconds and leaves the clock running. -/
theorem kneel_cycle_consumes_43_after_prior_kneel (gs : GameState) (d : Draws)
    (k : ℤ)
    (hsec : gs.seconds_remaining = 3600)
    (hclock : gs.clock_rolling = true)
    (hdown : gs.down = some k)
    (hk : k ≤ 3)
    (hot : d.offense_timeout_called = false)
    (hdt : d.defense_timeout_called = false)
    (hpo : d.penalty_yards_offense = 0)
    (hpd : d.penalty_yards_defense = 0)
    (hact : d.first_3_downs_action = PlayCall.qb_kneel) :
    (Simulator.cycle d
      { game_state := gs, next_action := NextAction.play,
        prev_action := some ActionTag.qb_kneel }).game_state.seconds_remaining
        = 3557 ∧
    (Simulator.cycle d
      { game_state := gs, next_action := NextAction.play,
        prev_action := some ActionTag.qb_kneel }).game_state.clock_rolling
        = true := by
  have hk4 : k ≠ 4 := by omega
  simp [Simulator.cycle, Simulator.timeout, Simulator.calculate_clock_runoff,
    Simulator.penalty, Simulator.simulate_play, Simulator.qb_kneel,
    GameState.decrement_seconds_remaining, GameState.start_clock,
    GameState.stop_clock, GameState.add_rush_yards, GameState.add_to_distance,
    GameState.add_to_yards_to_goal, GameState.increment_down,
    GameState.switch_possession, GameState.set_down, GameState.set_distance,
    GameState.flip_yards_to_goal, optLeZ, optLeQ, ite_self,
    hsec, hclock, hdown, hk, hk4, hot, hdt, hpo, hpd, hact]

/-- Witness for C5 (amended): evaluated on a concrete 1st-and-10 state whose
previous action was a kneel, with the kneel draws. -/
theorem kneel_cycle_consumes_43_witness :
    (Simulator.cycle kneelDraws
      { game_state := testState 3600 1 10 50 true,
        next_action := NextAction.play,
        prev_action := some ActionTag.qb_kneel }).game_state.seconds_remaining
        = 3557 ∧
    (Simulator.cycle kneelDraws
      { game_state := testState 3600 1 10 50 true,
        next_action := NextAction.play,
        prev_action := some ActionTag.qb_kneel }).game_state.clock_rolling
        = true :=
  kneel_cycle_consumes_43_after_prior_kneel (testState 3600 1 10 50 true)
    kneelDraws 1 rfl rfl rfl (by norm_num) rfl rfl rfl rfl rfl

end CFB
